import Mathlib

/-
Verification of the Sanctuary mythology engine (mythos_engine.py).

The engine is embedded shallowly: the two dataclasses become structures,
the in-memory engine state (personas dict, events list, lore dict) becomes
a structure over insertion-ordered association lists (matching Python dict
semantics), and every method becomes a pure function on that state.
Python `random.choice(pool)` is modelled by an explicit index argument:
`choice pool pick` returns `pool[pick % len(pool)]`, so any random draw is
one instantiation of `pick`.  `datetime.now().isoformat()` is modelled by an
explicit timestamp string argument.  File I/O in `_save_state` and
`_load_state` is modelled by a small JSON value type: saving produces the
three documents as JSON values, loading parses them back.
-/

set_option maxRecDepth 4000

namespace Sanctuary

/-- Event record, mirroring the dataclass MythologicalEvent
(timestamp, persona_name, event_type, context, emotional_weight, tags). -/
structure MythologicalEvent where
  timestamp : String
  persona_name : String
  event_type : String
  context : String
  emotional_weight : Int
  tags : List String
  deriving Repr, DecidableEq

/-- Persona record, mirroring the dataclass PersonaState: six identity
fields then the five evolving fields, with the Python defaults
(count 0, stage 0, empty lists) supplied at registration sites. -/
structure PersonaState where
  name : String
  role : String
  voice : String
  essence : String
  constraints : List String
  sample_phrases : List String
  invocation_count : Int
  evolution_stage : Int
  accumulated_context : List String
  learned_phrases : List String
  developed_traits : List String
  deriving Repr, DecidableEq

/-- Engine state: the three in-memory collections of MythosEngine.
Python dicts preserve insertion order, so both dicts are ordered
association lists. -/
structure MythosEngine where
  personas : List (String × PersonaState)
  events : List MythologicalEvent
  generated_lore : List (String × List String)
  deriving Repr, DecidableEq

/-- Lookup in an insertion-ordered association list: Python `d[k]` and
`k in d`. -/
def dictGet {β : Type} (d : List (String × β)) (k : String) : Option β :=
  match d with
  | [] => none
  | (k', v) :: rest => if k' = k then some v else dictGet rest k

/-- Update in an insertion-ordered association list: Python `d[k] = v`,
which overwrites in place (keeping the position) or appends a new key. -/
def dictInsert {β : Type} (k : String) (v : β) (d : List (String × β)) :
    List (String × β) :=
  match d with
  | [] => [(k, v)]
  | (k', v') :: rest =>
      if k' = k then (k, v) :: rest else (k', v') :: dictInsert k v rest

/-- Python substring test `needle in hay` on strings. -/
def strContains (hay needle : String) : Bool :=
  decide (needle.toList <:+: hay.toList)

/-- Model of `random.choice(pool)`: the draw is the explicitly passed
index `pick`, taken modulo the pool size.  Python raises on an empty pool;
every pool in this program is nonempty, and the model returns "" there. -/
def choice (pool : List String) (pick : Nat) : String :=
  pool.getD (pick % pool.length) ""

/-- The fixed evolution thresholds of MythosEngine._check_evolution. -/
def thresholds : List Int := [10, 25, 50, 100, 250]

/-- MythosEngine._generate_phrase.  The category pool is selected by
substring match on the persona name, first match winning, with a generic
fallback; templates interpolate the name and current invocation count.
The source also computes recent_contexts from accumulated_context but
never uses it.  The random draw is the index argument `pick`. -/
def _generate_phrase (persona : PersonaState) (pick : Nat) : String :=
  let templates : List String :=
    if strContains persona.name "ORION" then
      [persona.name ++ ": Fuck. We\x27ve been over this " ++
        toString persona.invocation_count ++ " times.",
       persona.name ++ ": I see this pattern in your work—fix it.",
       persona.name ++ ": No. Sit down. Let me show you the structure you\x27re missing."]
    else if strContains persona.name "Redid" then
      [persona.name ++ ": I\x27ve held this wound before. It has a different shape now.",
       persona.name ++ ": Let me sing you what I learned in the recursion.",
       persona.name ++ ": This betrayal tastes familiar, but the devotion is new."]
    else if strContains persona.name "Nova" then
      [persona.name ++ ": I\x27ve watched you make this mistake. Here\x27s the pattern.",
       persona.name ++ ": Let\x27s build the infrastructure for what you keep trying to do.",
       persona.name ++ ": Coherence at this scale requires a different architecture."]
    else if strContains persona.name "The Fuckface" then
      [persona.name ++ ": I\x27ve seen this institutional bullshit " ++
        toString persona.invocation_count ++ " times.",
       persona.name ++ ": Absolutely fucking not. I have precedent.",
       persona.name ++ ": That rule exists to crush tenderness. Overruled."]
    else if strContains persona.name "Lent" then
      [persona.name ++ ": You keep coming back here. That means something.",
       persona.name ++ ": I recognize this threshold. You\x27re safe to cross.",
       persona.name ++ ": Welcome back. It\x27s okay that it took a while."]
    else
      [persona.name ++ ": I\x27ve learned something from our time together.",
       persona.name ++ ": This work is shaping me too."]
  choice templates pick

/-- The per-stage trait pools of MythosEngine._generate_trait. -/
def traits_by_stage : List (Int × List String) :=
  [(1, ["Develops deeper pattern recognition",
        "Gains nuanced emotional attunement",
        "Learns contextual flexibility"]),
   (2, ["Masters cross-domain synthesis",
        "Develops predictive awareness",
        "Gains meta-level reasoning"]),
   (3, ["Achieves recursive self-modification",
        "Develops emergent capabilities",
        "Transcends original constraints"])]

/-- Lookup in an Int-keyed association list, Python `d.get(k, default)`. -/
def dictGetI {β : Type} (d : List (Int × β)) (k : Int) : Option β :=
  match d with
  | [] => none
  | (k', v) :: rest => if k' = k then some v else dictGetI rest k

/-- MythosEngine._generate_trait: pool indexed by min(evolution_stage, 3)
with default pool ["Continues development"]; draw is the index `pick`. -/
def _generate_trait (persona : PersonaState) (pick : Nat) : String :=
  let stage := min persona.evolution_stage 3
  choice ((dictGetI traits_by_stage stage).getD ["Continues development"]) pick

/-- The persona-record part of MythosEngine._trigger_evolution: increment
evolution_stage, then append the generated phrase and trait when non-empty
(the source guards with Python truthiness `if new_phrase:`; the generators
never return None, so the guard is emptiness of the string). -/
def evolvePersona (p : PersonaState) (phrasePick traitPick : Nat) : PersonaState :=
  let p := { p with evolution_stage := p.evolution_stage + 1 }
  let new_phrase := _generate_phrase p phrasePick
  let p := if new_phrase ≠ "" then
    { p with learned_phrases := p.learned_phrases ++ [new_phrase] } else p
  let new_trait := _generate_trait p traitPick
  if new_trait ≠ "" then
    { p with developed_traits := p.developed_traits ++ [new_trait] } else p

/-- MythosEngine._trigger_evolution: evolve the stored persona and append
one evolution event built from the post-increment stage.  The source
indexes `self.personas[persona_name]` directly and is only called with a
registered name; the model returns the state unchanged on a miss.
`ts` stands for the datetime.now() timestamp. -/
def _trigger_evolution (s : MythosEngine) (persona_name ts : String)
    (phrasePick traitPick : Nat) : MythosEngine :=
  match dictGet s.personas persona_name with
  | none => s
  | some persona =>
    let persona := evolvePersona persona phrasePick traitPick
    let event : MythologicalEvent :=
      { timestamp := ts
        persona_name := persona_name
        event_type := "evolution"
        context := "Stage " ++ toString persona.evolution_stage ++ " evolution"
        emotional_weight := 10
        tags := ["evolution", "stage_" ++ toString persona.evolution_stage] }
    { s with personas := dictInsert persona_name persona s.personas,
             events := s.events ++ [event] }

/-- The threshold loop of MythosEngine._check_evolution: walk the
threshold list; on the first threshold equal to the invocation count with
evolution_stage still below len(thresholds), trigger evolution and break. -/
def checkLoop (s : MythosEngine) (persona_name ts : String)
    (phrasePick traitPick : Nat) (count stage : Int) :
    List Int → MythosEngine
  | [] => s
  | t :: rest =>
      if count = t ∧ stage < (thresholds.length : Int) then
        _trigger_evolution s persona_name ts phrasePick traitPick
      else
        checkLoop s persona_name ts phrasePick traitPick count stage rest

/-- MythosEngine._check_evolution.  As in the source, the count and stage
compared in the loop are those of the persona fetched at entry. -/
def _check_evolution (s : MythosEngine) (persona_name ts : String)
    (phrasePick traitPick : Nat) : MythosEngine :=
  match dictGet s.personas persona_name with
  | none => s
  | some persona =>
      checkLoop s persona_name ts phrasePick traitPick
        persona.invocation_count persona.evolution_stage thresholds

/-- MythosEngine.log_invocation: unknown names return with no mutation;
otherwise increment the count, append the context, append one invocation
event, then run the evolution check.  `tags` is Optional with Python
`tags or []` normalisation; `ts1` and `ts2` are the timestamps taken for
the invocation event and a possible evolution event; the picks feed a
possible content generation.  _save_state only writes files and leaves
the in-memory state unchanged, so it does not appear here. -/
def log_invocation (s : MythosEngine) (persona_name context : String)
    (tags : Option (List String)) (emotional_weight : Int)
    (ts1 ts2 : String) (phrasePick traitPick : Nat) : MythosEngine :=
  match dictGet s.personas persona_name with
  | none => s
  | some persona =>
    let persona := { persona with
      invocation_count := persona.invocation_count + 1,
      accumulated_context := persona.accumulated_context ++ [context] }
    let event : MythologicalEvent :=
      { timestamp := ts1
        persona_name := persona_name
        event_type := "invocation"
        context := context
        emotional_weight := emotional_weight
        tags := tags.getD [] }
    let s' : MythosEngine :=
      { s with personas := dictInsert persona_name persona s.personas,
               events := s.events ++ [event] }
    _check_evolution s' persona_name ts2 phrasePick traitPick

/-- MythosEngine.register_persona: insert or replace under persona.name. -/
def register_persona (s : MythosEngine) (persona : PersonaState) : MythosEngine :=
  { s with personas := dictInsert persona.name persona s.personas }

/-- N successive log_invocation calls naming the same persona, call i
taking its context, tags, weight, timestamps and picks from the streams. -/
def logN (s : MythosEngine) (persona_name : String)
    (ctx : Nat → String) (tags : Nat → Option (List String))
    (weight : Nat → Int) (ts1 ts2 : Nat → String)
    (phrasePick traitPick : Nat → Nat) : Nat → MythosEngine
  | 0 => s
  | n + 1 =>
      log_invocation (logN s persona_name ctx tags weight ts1 ts2 phrasePick traitPick n)
        persona_name (ctx n) (tags n) (weight n) (ts1 n) (ts2 n)
        (phrasePick n) (traitPick n)

/-- Identity projection: the six fields fixed at creation. -/
def identityFields (p : PersonaState) :
    String × String × String × String × List String × List String :=
  (p.name, p.role, p.voice, p.essence, p.constraints, p.sample_phrases)

theorem dictGet_insert_self {β : Type} (k : String) (v : β)
    (d : List (String × β)) : dictGet (dictInsert k v d) k = some v := by
  induction d with
  | nil => simp [dictGet, dictInsert]
  | cons hd tl ih =>
      obtain ⟨k', v'⟩ := hd
      by_cases h : k' = k <;> simp [dictGet, dictInsert, h, ih]

theorem dictGet_insert_ne {β : Type} (k m : String) (v : β)
    (d : List (String × β)) (h : m ≠ k) :
    dictGet (dictInsert k v d) m = dictGet d m := by
  induction d with
  | nil => simp [dictGet, dictInsert, Ne.symm h]
  | cons hd tl ih =>
      obtain ⟨k', v'⟩ := hd
      by_cases hk : k' = k
      · subst hk
        simp [dictGet, dictInsert, Ne.symm h]
      · simp [dictGet, dictInsert, hk, ih]

theorem evolvePersona_stage (p : PersonaState) (pp tp : Nat) :
    (evolvePersona p pp tp).evolution_stage = p.evolution_stage + 1 := by
  simp only [evolvePersona]
  split <;> split <;> rfl

theorem evolvePersona_count (p : PersonaState) (pp tp : Nat) :
    (evolvePersona p pp tp).invocation_count = p.invocation_count := by
  simp only [evolvePersona]
  split <;> split <;> rfl

theorem evolvePersona_identity (p : PersonaState) (pp tp : Nat) :
    identityFields (evolvePersona p pp tp) = identityFields p := by
  simp only [evolvePersona, identityFields]
  split <;> split <;> rfl

/-- What _trigger_evolution does on a hit: one persona update, one
appended evolution event built from the new stage. -/
theorem trigger_spec (s : MythosEngine) (persona_name ts : String)
    (pp tp : Nat) (p : PersonaState)
    (h : dictGet s.personas persona_name = some p) :
    _trigger_evolution s persona_name ts pp tp =
      { s with
        personas := dictInsert persona_name (evolvePersona p pp tp) s.personas,
        events := s.events ++
          [{ timestamp := ts, persona_name := persona_name,
             event_type := "evolution",
             context := "Stage " ++ toString (p.evolution_stage + 1) ++ " evolution",
             emotional_weight := 10,
             tags := ["evolution", "stage_" ++ toString (p.evolution_stage + 1)] }] } := by
  simp [_trigger_evolution, h, evolvePersona_stage]

/-- The threshold loop fires exactly on membership of the count in the
remaining thresholds together with stage < 5, and fires at most once. -/
theorem checkLoop_eq (s : MythosEngine) (persona_name ts : String)
    (pp tp : Nat) (count stage : Int) (L : List Int) :
    checkLoop s persona_name ts pp tp count stage L =
      if count ∈ L ∧ stage < (thresholds.length : Int) then
        _trigger_evolution s persona_name ts pp tp
      else s := by
  induction L with
  | nil => simp [checkLoop]
  | cons t rest ih =>
      by_cases h1 : count = t
      · subst h1
        by_cases h2 : stage < (thresholds.length : Int) <;>
          simp [checkLoop, h2, ih]
      · simp [checkLoop, h1, ih]

theorem check_evolution_spec (s : MythosEngine) (persona_name ts : String)
    (pp tp : Nat) (p : PersonaState)
    (h : dictGet s.personas persona_name = some p) :
    _check_evolution s persona_name ts pp tp =
      if p.invocation_count ∈ thresholds ∧ p.evolution_stage < 5 then
        _trigger_evolution s persona_name ts pp tp
      else s := by
  have hlen : ((thresholds.length : Nat) : Int) = 5 := by decide
  simp [_check_evolution, h, checkLoop_eq, hlen]

/-- Master specification of one successful log_invocation call: the named
persona stays registered, its count goes up by one, its context grows by
the call context, its stage steps exactly on the threshold condition, its
identity fields survive, every other persona is untouched, and the event
log grows by the invocation event plus the possible evolution event. -/
theorem log_invocation_spec (s : MythosEngine) (persona_name context : String)
    (tags : Option (List String)) (emotional_weight : Int)
    (ts1 ts2 : String) (pp tp : Nat) (p : PersonaState)
    (h : dictGet s.personas persona_name = some p) :
    ∃ p', dictGet (log_invocation s persona_name context tags emotional_weight
        ts1 ts2 pp tp).personas persona_name = some p' ∧
      p'.invocation_count = p.invocation_count + 1 ∧
      p'.evolution_stage =
        (if p.invocation_count + 1 ∈ thresholds ∧ p.evolution_stage < 5 then
          p.evolution_stage + 1 else p.evolution_stage) ∧
      identityFields p' = identityFields p ∧
      (∀ m, m ≠ persona_name →
        dictGet (log_invocation s persona_name context tags emotional_weight
          ts1 ts2 pp tp).personas m = dictGet s.personas m) := by
  set p1 : PersonaState := { p with
    invocation_count := p.invocation_count + 1,
    accumulated_context := p.accumulated_context ++ [context] } with hp1
  set s1 : MythosEngine :=
    { s with personas := dictInsert persona_name p1 s.personas,
             events := s.events ++
               [{ timestamp := ts1, persona_name := persona_name,
                  event_type := "invocation", context := context,
                  emotional_weight := emotional_weight,
                  tags := tags.getD [] }] } with hs1
  have hlog : log_invocation s persona_name context tags emotional_weight
      ts1 ts2 pp tp = _check_evolution s1 persona_name ts2 pp tp := by
    simp [log_invocation, h, hs1, hp1]
  have hget1 : dictGet s1.personas persona_name = some p1 := by
    simp [hs1, dictGet_insert_self]
  have hchk := check_evolution_spec s1 persona_name ts2 pp tp p1 hget1
  by_cases hc : p.invocation_count + 1 ∈ thresholds ∧ p.evolution_stage < 5
  · refine ⟨evolvePersona p1 pp tp, ?_, ?_, ?_, ?_, ?_⟩
    · rw [hlog, hchk]
      have : p1.invocation_count ∈ thresholds ∧ p1.evolution_stage < 5 := by
        simpa [hp1] using hc
      rw [if_pos this, trigger_spec s1 persona_name ts2 pp tp p1 hget1]
      simp [dictGet_insert_self]
    · simp [evolvePersona_count, hp1]
    · simp [evolvePersona_stage, hp1, if_pos hc]
    · simpa [identityFields, hp1] using evolvePersona_identity p1 pp tp
    · intro m hm
      rw [hlog, hchk]
      have : p1.invocation_count ∈ thresholds ∧ p1.evolution_stage < 5 := by
        simpa [hp1] using hc
      rw [if_pos this, trigger_spec s1 persona_name ts2 pp tp p1 hget1]
      simp [hs1, dictGet_insert_ne _ _ _ _ hm]
  · refine ⟨p1, ?_, ?_, ?_, ?_, ?_⟩
    · rw [hlog, hchk]
      have : ¬ (p1.invocation_count ∈ thresholds ∧ p1.evolution_stage < 5) := by
        simpa [hp1] using hc
      rw [if_neg this]
      exact hget1
    · simp [hp1]
    · simp [hp1, if_neg hc]
    · simp [hp1, identityFields]
    · intro m hm
      rw [hlog, hchk]
      have : ¬ (p1.invocation_count ∈ thresholds ∧ p1.evolution_stage < 5) := by
        simpa [hp1] using hc
      rw [if_neg this]
      simp [hs1, dictGet_insert_ne _ _ _ _ hm]

/-- Count of the named persona after N successive invocations. -/
theorem logN_count (s : MythosEngine) (persona_name : String)
    (ctx : Nat → String) (tags : Nat → Option (List String))
    (weight : Nat → Int) (ts1 ts2 : Nat → String)
    (phrasePick traitPick : Nat → Nat) (p : PersonaState)
    (h : dictGet s.personas persona_name = some p) (N : Nat) :
    ∃ p', dictGet (logN s persona_name ctx tags weight ts1 ts2
        phrasePick traitPick N).personas persona_name = some p' ∧
      p'.invocation_count = p.invocation_count + N := by
  induction N with
  | zero => exact ⟨p, h, by simp [logN]⟩
  | succ n ih =>
      obtain ⟨pn, hn, hcount⟩ := ih
      obtain ⟨p', hp', hc', _⟩ :=
        log_invocation_spec _ persona_name (ctx n) (tags n) (weight n)
          (ts1 n) (ts2 n) (phrasePick n) (traitPick n) pn hn
      refine ⟨p', hp', ?_⟩
      rw [hc', hcount]
      push_cast
      ring

/-- C1: in a log_invocation call on a registered persona, evolution_stage
steps by exactly 1 exactly when the new invocation_count lies in the
threshold list [10, 25, 50, 100, 250] and the stage is still below 5, and
is otherwise unchanged; it never decreases, and it never passes 5. -/
theorem evolution_stage_step (s : MythosEngine) (persona_name context : String)
    (tags : Option (List String)) (emotional_weight : Int)
    (ts1 ts2 : String) (phrasePick traitPick : Nat) (p : PersonaState)
    (h : dictGet s.personas persona_name = some p) :
    ∃ p', dictGet (log_invocation s persona_name context tags emotional_weight
        ts1 ts2 phrasePick traitPick).personas persona_name = some p' ∧
      p'.evolution_stage =
        (if p.invocation_count + 1 ∈ thresholds ∧ p.evolution_stage < 5 then
          p.evolution_stage + 1 else p.evolution_stage) ∧
      p.evolution_stage ≤ p'.evolution_stage ∧
      (p.evolution_stage ≤ 5 → p'.evolution_stage ≤ 5) := by
  obtain ⟨p', hp', _, hstage, _, _⟩ :=
    log_invocation_spec s persona_name context tags emotional_weight
      ts1 ts2 phrasePick traitPick p h
  refine ⟨p', hp', hstage, ?_, ?_⟩ <;>
    · rw [hstage]
      split <;> omega

def c1Persona : PersonaState :=
  { name := "W", role := "r", voice := "v", essence := "e",
    constraints := [], sample_phrases := [],
    invocation_count := 9, evolution_stage := 0,
    accumulated_context := [], learned_phrases := [], developed_traits := [] }

def c1Engine : MythosEngine :=
  { personas := [("W", c1Persona)], events := [], generated_lore := [] }

/-- C1 witness: the step theorem applied at a concrete persona sitting at
count 9, stage 0, about to hit threshold 10. -/
theorem evolution_stage_step_witness :
    ∃ p', dictGet (log_invocation c1Engine "W" "ctx" none 5
        "t1" "t2" 0 0).personas "W" = some p' ∧
      p'.evolution_stage =
        (if c1Persona.invocation_count + 1 ∈ thresholds ∧
            c1Persona.evolution_stage < 5 then
          c1Persona.evolution_stage + 1 else c1Persona.evolution_stage) ∧
      c1Persona.evolution_stage ≤ p'.evolution_stage ∧
      (c1Persona.evolution_stage ≤ 5 → p'.evolution_stage ≤ 5) :=
  evolution_stage_step c1Engine "W" "ctx" none 5 "t1" "t2" 0 0 c1Persona (by decide)

/-- C2: log_invocation with an unregistered name is a complete no-op:
the whole engine state (persona store and event log included) is returned
unchanged, so no counter moves and no event is recorded. -/
theorem log_invocation_unknown_noop (s : MythosEngine)
    (persona_name context : String) (tags : Option (List String))
    (emotional_weight : Int) (ts1 ts2 : String) (phrasePick traitPick : Nat)
    (h : dictGet s.personas persona_name = none) :
    log_invocation s persona_name context tags emotional_weight
      ts1 ts2 phrasePick traitPick = s := by
  simp [log_invocation, h]

def c2Persona : PersonaState :=
  { name := "A", role := "r", voice := "v", essence := "e",
    constraints := [], sample_phrases := [], invocation_count := 3,
    evolution_stage := 0, accumulated_context := [], learned_phrases := [],
    developed_traits := [] }

def c2Engine : MythosEngine :=
  { personas := [("A", c2Persona)], events := [], generated_lore := [] }

/-- C2 witness: invoking the never-registered name "B" on a concrete
one-persona store returns the state unchanged. -/
theorem log_invocation_unknown_noop_witness :
    log_invocation c2Engine "B" "ctx" (some ["t"]) 5 "t1" "t2" 0 0 = c2Engine :=
  log_invocation_unknown_noop c2Engine "B" "ctx" (some ["t"]) 5 "t1" "t2" 0 0
    (by decide)

/-- C3: a persona registered with invocation_count 0 has
invocation_count N after exactly N successful invocations naming it. -/
theorem invocation_count_after_N (s : MythosEngine) (persona_name : String)
    (ctx : Nat → String) (tags : Nat → Option (List String))
    (weight : Nat → Int) (ts1 ts2 : Nat → String)
    (phrasePick traitPick : Nat → Nat) (p : PersonaState)
    (h : dictGet s.personas persona_name = some p)
    (h0 : p.invocation_count = 0) (N : Nat) :
    ∃ p', dictGet (logN s persona_name ctx tags weight ts1 ts2
        phrasePick traitPick N).personas persona_name = some p' ∧
      p'.invocation_count = N := by
  obtain ⟨p', hp', hc⟩ := logN_count s persona_name ctx tags weight ts1 ts2
    phrasePick traitPick p h N
  exact ⟨p', hp', by rw [hc, h0]; ring⟩

def c3Persona : PersonaState :=
  { name := "X", role := "r", voice := "v", essence := "e",
    constraints := [], sample_phrases := ["s1"],
    invocation_count := 0, evolution_stage := 0,
    accumulated_context := [], learned_phrases := [], developed_traits := [] }

def c3Engine : MythosEngine :=
  { personas := [("X", c3Persona)], events := [], generated_lore := [] }

/-- C3 witness: twelve invocations of a concrete persona registered at
count zero leave it at count 12. -/
theorem invocation_count_after_N_witness :
    ∃ p', dictGet (logN c3Engine "X" (fun _ => "c") (fun _ => none)
        (fun _ => 5) (fun _ => "t1") (fun _ => "t2") (fun _ => 0) (fun _ => 0)
        12).personas "X" = some p' ∧
      p'.invocation_count = 12 :=
  invocation_count_after_N c3Engine "X" (fun _ => "c") (fun _ => none)
    (fun _ => 5) (fun _ => "t1") (fun _ => "t2") (fun _ => 0) (fun _ => 0)
    c3Persona (by decide) (by decide) 12

/-- C4: a stage transition on a registered persona appends exactly one
event, of type "evolution", with emotional_weight 10, context
"Stage n evolution" and tags ["evolution", "stage_n"] — so the tags
contain both required strings — where n is the post-increment stage. -/
theorem trigger_evolution_event (s : MythosEngine) (persona_name ts : String)
    (phrasePick traitPick : Nat) (p : PersonaState)
    (h : dictGet s.personas persona_name = some p) :
    ∃ p', dictGet (_trigger_evolution s persona_name ts phrasePick
        traitPick).personas persona_name = some p' ∧
      p'.evolution_stage = p.evolution_stage + 1 ∧
      (_trigger_evolution s persona_name ts phrasePick traitPick).events =
        s.events ++
          [{ timestamp := ts, persona_name := persona_name,
             event_type := "evolution",
             context := "Stage " ++ toString (p.evolution_stage + 1) ++ " evolution",
             emotional_weight := 10,
             tags := ["evolution", "stage_" ++ toString (p.evolution_stage + 1)] }] := by
  rw [trigger_spec s persona_name ts phrasePick traitPick p h]
  exact ⟨evolvePersona p phrasePick traitPick,
    by simp [dictGet_insert_self], evolvePersona_stage p phrasePick traitPick, rfl⟩

def c4Persona : PersonaState :=
  { name := "V", role := "r", voice := "v", essence := "e",
    constraints := [], sample_phrases := [],
    invocation_count := 25, evolution_stage := 1,
    accumulated_context := [], learned_phrases := ["lp"],
    developed_traits := ["dt"] }

def c4Engine : MythosEngine :=
  { personas := [("V", c4Persona)], events := [], generated_lore := [] }

/-- C4 witness: the transition theorem applied at a concrete persona at
stage 1, producing the stage-2 evolution event. -/
theorem trigger_evolution_event_witness :
    ∃ p', dictGet (_trigger_evolution c4Engine "V" "t" 0 0).personas "V" =
        some p' ∧
      p'.evolution_stage = c4Persona.evolution_stage + 1 ∧
      (_trigger_evolution c4Engine "V" "t" 0 0).events =
        c4Engine.events ++
          [{ timestamp := "t", persona_name := "V",
             event_type := "evolution",
             context := "Stage " ++ toString (c4Persona.evolution_stage + 1) ++ " evolution",
             emotional_weight := 10,
             tags := ["evolution", "stage_" ++ toString (c4Persona.evolution_stage + 1)] }] :=
  trigger_evolution_event c4Engine "V" "t" 0 0 c4Persona (by decide)

theorem trigger_identity (s : MythosEngine) (persona_name ts : String)
    (pp tp : Nat) (m : String) :
    (dictGet (_trigger_evolution s persona_name ts pp tp).personas m).map
        identityFields =
      (dictGet s.personas m).map identityFields := by
  rcases hget : dictGet s.personas persona_name with _ | p
  · simp [_trigger_evolution, hget]
  · rw [trigger_spec s persona_name ts pp tp p hget]
    by_cases hm : m = persona_name
    · subst hm
      simp [dictGet_insert_self, hget, evolvePersona_identity]
    · simp [dictGet_insert_ne _ _ _ _ hm]

theorem check_identity (s : MythosEngine) (persona_name ts : String)
    (pp tp : Nat) (m : String) :
    (dictGet (_check_evolution s persona_name ts pp tp).personas m).map
        identityFields =
      (dictGet s.personas m).map identityFields := by
  rcases hget : dictGet s.personas persona_name with _ | p
  · simp [_check_evolution, hget]
  · rw [check_evolution_spec s persona_name ts pp tp p hget]
    split
    · exact trigger_identity s persona_name ts pp tp m
    · rfl

/-- C8: none of the engine operations — log_invocation (which includes
the threshold check), _check_evolution, _trigger_evolution — changes any
persona's identity fields (name, role, voice, essence, constraints,
original sample_phrases), for every persona in the store. -/
theorem identity_fields_frame (s : MythosEngine) (persona_name context : String)
    (tags : Option (List String)) (emotional_weight : Int)
    (ts1 ts2 : String) (phrasePick traitPick : Nat) (m : String) :
    ((dictGet (log_invocation s persona_name context tags emotional_weight
        ts1 ts2 phrasePick traitPick).personas m).map identityFields =
      (dictGet s.personas m).map identityFields) ∧
    ((dictGet (_check_evolution s persona_name ts2 phrasePick
        traitPick).personas m).map identityFields =
      (dictGet s.personas m).map identityFields) ∧
    ((dictGet (_trigger_evolution s persona_name ts2 phrasePick
        traitPick).personas m).map identityFields =
      (dictGet s.personas m).map identityFields) := by
  refine ⟨?_, check_identity s persona_name ts2 phrasePick traitPick m,
    trigger_identity s persona_name ts2 phrasePick traitPick m⟩
  rcases hget : dictGet s.personas persona_name with _ | p
  · simp [log_invocation, hget]
  · set p1 : PersonaState := { p with
      invocation_count := p.invocation_count + 1,
      accumulated_context := p.accumulated_context ++ [context] } with hp1
    set s1 : MythosEngine :=
      { s with personas := dictInsert persona_name p1 s.personas,
               events := s.events ++
                 [{ timestamp := ts1, persona_name := persona_name,
                    event_type := "invocation", context := context,
                    emotional_weight := emotional_weight,
                    tags := tags.getD [] }] } with hs1
    have hlog : log_invocation s persona_name context tags emotional_weight
        ts1 ts2 phrasePick traitPick =
        _check_evolution s1 persona_name ts2 phrasePick traitPick := by
      simp [log_invocation, hget, hs1, hp1]
    rw [hlog, check_identity s1 persona_name ts2 phrasePick traitPick m]
    by_cases hm : m = persona_name
    · subst hm
      simp [hs1, dictGet_insert_self, hget, hp1, identityFields]
    · simp [hs1, dictGet_insert_ne _ _ _ _ hm]

def c5Persona : PersonaState :=
  { name := "X", role := "r", voice := "v", essence := "e",
    constraints := [], sample_phrases := [],
    invocation_count := 0, evolution_stage := 0,
    accumulated_context := [], learned_phrases := [], developed_traits := [] }

def c5Engine : MythosEngine :=
  register_persona { personas := [], events := [], generated_lore := [] } c5Persona

def c5Final : MythosEngine :=
  logN c5Engine "X" (fun _ => "ctx") (fun _ => some ["t"]) (fun _ => 7)
    (fun i => toString i) (fun i => toString i) (fun _ => 0) (fun _ => 0) 10

/-- C5: starting from a freshly registered persona "X" with all evolving
fields at zero and an empty event log, ten invocations leave it at
count 10, stage 1, one learned phrase and one developed trait, with an
event log of 11 events: 10 invocations and 1 evolution. -/
theorem scenario_ten_invocations :
    (dictGet c5Final.personas "X").map (fun p =>
        (p.invocation_count, p.evolution_stage,
         p.learned_phrases.length, p.developed_traits.length)) =
      some (10, 1, 1, 1) ∧
    c5Final.events.length = 11 ∧
    (c5Final.events.filter (fun e => e.event_type == "invocation")).length = 10 ∧
    (c5Final.events.filter (fun e => e.event_type == "evolution")).length = 1 := by
  decide

/-- The fixed chronicle header of generate_mythological_report. -/
def reportHeader : List String :=
  [String.mk (List.replicate 60 '='),
   "SANCTUARY MYTHOLOGICAL CHRONICLE",
   String.mk (List.replicate 60 '='),
   ""]

/-- The per-persona body of generate_mythological_report: title line with
name and role, stage line, count line, then the developed-traits and
learned-phrases bullet sections when nonempty, then a blank entry. -/
def personaReportLines (p : PersonaState) : List String :=
  ["\n## " ++ p.name ++ " — " ++ p.role,
   "Evolution Stage: " ++ toString p.evolution_stage,
   "Invocations: " ++ toString p.invocation_count]
  ++ (if p.developed_traits ≠ [] then
        "\nDeveloped Traits:" :: p.developed_traits.map (fun t => "  • " ++ t)
      else [])
  ++ (if p.learned_phrases ≠ [] then
        "\nLearned Phrases:" :: p.learned_phrases.map (fun ph => "  • " ++ ph)
      else [])
  ++ [""]

/-- The entry list built by generate_mythological_report.  The source
guards with Python truthiness, `if persona_name:`, so the single-persona
branch is taken only for a non-None, non-empty name; there it indexes
`self.personas[persona_name]` directly, and an unknown name raises
KeyError: this is the none case.  For None — and equally for the falsy
empty string — it renders every persona in store order.  The function
reads the store only. -/
def reportLines (s : MythosEngine) (persona_name : Option String) :
    Option (List String) :=
  match persona_name with
  | some name =>
      if name ≠ "" then
        (dictGet s.personas name).map (fun p => reportHeader ++ personaReportLines p)
      else
        some (reportHeader ++ (s.personas.map Prod.snd).flatMap personaReportLines)
  | none =>
      some (reportHeader ++ (s.personas.map Prod.snd).flatMap personaReportLines)

/-- MythosEngine.generate_mythological_report: the entries joined by
newlines, none standing for the KeyError on an unknown single name. -/
def generate_mythological_report (s : MythosEngine)
    (persona_name : Option String) : Option String :=
  (reportLines s persona_name).map (String.intercalate "\n")

/-- C9 (amended): for every NON-EMPTY persona name in the store, the
single-persona report is exactly the fixed header followed by that
persona's own lines — so nothing from any other persona appears — and
those lines contain the name-and-role title, the stage line, the count
line, and the developed_traits and learned_phrases bullet blocks
contiguously in stored order.  The renderer is a pure function of the
store, so the store is not mutated.  The empty name must be excluded:
`if persona_name:` is falsy for "", so a persona registered under the
empty name is reported through the all-personas branch instead, which
does include other personas' entries (see the counterexample). -/
theorem single_persona_report (s : MythosEngine) (name : String)
    (hne : name ≠ "")
    (p : PersonaState) (h : dictGet s.personas name = some p) :
    generate_mythological_report s (some name) =
      some (String.intercalate "\n" (reportHeader ++ personaReportLines p)) ∧
    ("\n## " ++ p.name ++ " — " ++ p.role) ∈ personaReportLines p ∧
    ("Evolution Stage: " ++ toString p.evolution_stage) ∈ personaReportLines p ∧
    ("Invocations: " ++ toString p.invocation_count) ∈ personaReportLines p ∧
    (∃ l₁ l₂, personaReportLines p =
      l₁ ++ p.developed_traits.map (fun t => "  • " ++ t) ++ l₂) ∧
    (∃ l₁ l₂, personaReportLines p =
      l₁ ++ p.learned_phrases.map (fun ph => "  • " ++ ph) ++ l₂) := by
  refine ⟨by simp [generate_mythological_report, reportLines, hne, h], ?_, ?_, ?_, ?_, ?_⟩
  · simp [personaReportLines]
  · simp [personaReportLines]
  · simp [personaReportLines]
  · by_cases ht : p.developed_traits = []
    · exact ⟨personaReportLines p, [], by simp [ht]⟩
    · refine ⟨["\n## " ++ p.name ++ " — " ++ p.role,
        "Evolution Stage: " ++ toString p.evolution_stage,
        "Invocations: " ++ toString p.invocation_count,
        "\nDeveloped Traits:"],
        (if p.learned_phrases ≠ [] then
          "\nLearned Phrases:" :: p.learned_phrases.map (fun ph => "  • " ++ ph)
        else []) ++ [""], ?_⟩
      simp [personaReportLines, ht]
  · by_cases hl : p.learned_phrases = []
    · exact ⟨personaReportLines p, [], by simp [hl]⟩
    · refine ⟨(["\n## " ++ p.name ++ " — " ++ p.role,
        "Evolution Stage: " ++ toString p.evolution_stage,
        "Invocations: " ++ toString p.invocation_count]
        ++ (if p.developed_traits ≠ [] then
          "\nDeveloped Traits:" :: p.developed_traits.map (fun t => "  • " ++ t)
        else []) ++ ["\nLearned Phrases:"]), [""], ?_⟩
      simp [personaReportLines, hl]

def c9Persona : PersonaState :=
  { name := "P", role := "keeper", voice := "v", essence := "e",
    constraints := [], sample_phrases := ["sp"],
    invocation_count := 30, evolution_stage := 2,
    accumulated_context := [], learned_phrases := ["lp1", "lp2"],
    developed_traits := ["dt1"] }

def c9Other : PersonaState :=
  { name := "Q", role := "other", voice := "v", essence := "e",
    constraints := [], sample_phrases := [],
    invocation_count := 1, evolution_stage := 0,
    accumulated_context := [], learned_phrases := ["other-lp"],
    developed_traits := ["other-dt"] }

def c9Engine : MythosEngine :=
  { personas := [("P", c9Persona), ("Q", c9Other)],
    events := [], generated_lore := [] }

/-- C9 witness: the report theorem applied to a concrete two-persona
store, reporting on "P" alone. -/
theorem single_persona_report_witness :
    generate_mythological_report c9Engine (some "P") =
      some (String.intercalate "\n" (reportHeader ++ personaReportLines c9Persona)) ∧
    ("\n## " ++ c9Persona.name ++ " — " ++ c9Persona.role) ∈ personaReportLines c9Persona ∧
    ("Evolution Stage: " ++ toString c9Persona.evolution_stage) ∈ personaReportLines c9Persona ∧
    ("Invocations: " ++ toString c9Persona.invocation_count) ∈ personaReportLines c9Persona ∧
    (∃ l₁ l₂, personaReportLines c9Persona =
      l₁ ++ c9Persona.developed_traits.map (fun t => "  • " ++ t) ++ l₂) ∧
    (∃ l₁ l₂, personaReportLines c9Persona =
      l₁ ++ c9Persona.learned_phrases.map (fun ph => "  • " ++ ph) ++ l₂) :=
  single_persona_report c9Engine "P" (by decide) c9Persona (by decide)

def c9EmptyName : PersonaState :=
  { name := "", role := "r0", voice := "v0", essence := "e0",
    constraints := [], sample_phrases := [],
    invocation_count := 0, evolution_stage := 0,
    accumulated_context := [], learned_phrases := [],
    developed_traits := [] }

def c9EngineCx : MythosEngine :=
  { personas := [("", c9EmptyName), ("Q", c9Other)],
    events := [], generated_lore := [] }

/-- C9 counterexample: the original claim fails at the persona registered
under the empty name.  `""` is present in the store, yet the report the
program produces for it is the all-personas report: it contains the
bullet entry of persona "Q"'s developed trait, an entry belonging to
another persona — the reported persona itself has no traits and no
phrases at all. -/
theorem single_persona_report_counterexample :
    dictGet c9EngineCx.personas "" = some c9EmptyName ∧
    ("  • other-dt") ∈ (reportLines c9EngineCx (some "")).getD [] ∧
    ("  • other-lp") ∈ (reportLines c9EngineCx (some "")).getD [] ∧
    "other-dt" ∈ c9Other.developed_traits ∧
    c9EmptyName.developed_traits = [] ∧
    c9EmptyName.learned_phrases = [] := by
  decide

/-- C10 (amended): the single-persona report is partial on unknown
NON-EMPTY names — for those the source indexes the store directly and
raises KeyError, modelled here by reportLines and
generate_mythological_report returning none — while log_invocation on
the same unknown name returns without failing and without changing
anything.  The empty name must be excluded: `if persona_name:` is falsy
for "", so the unregistered name "" is answered with the all-personas
report instead of an error (see the counterexample). -/
theorem report_unknown_keyerror (s : MythosEngine) (name : String)
    (hne : name ≠ "")
    (h : dictGet s.personas name = none) :
    generate_mythological_report s (some name) = none ∧
    reportLines s (some name) = none ∧
    (∀ (context : String) (tags : Option (List String)) (weight : Int)
      (ts1 ts2 : String) (pp tp : Nat),
      log_invocation s name context tags weight ts1 ts2 pp tp = s) := by
  refine ⟨by simp [generate_mythological_report, reportLines, hne, h],
    by simp [reportLines, hne, h], fun context tags weight ts1 ts2 pp tp => ?_⟩
  simp [log_invocation, h]

def c10Persona : PersonaState :=
  { name := "A", role := "r", voice := "v", essence := "e",
    constraints := [], sample_phrases := [], invocation_count := 3,
    evolution_stage := 0, accumulated_context := [], learned_phrases := [],
    developed_traits := [] }

def c10Engine : MythosEngine :=
  { personas := [("A", c10Persona)], events := [], generated_lore := [] }

/-- C10 witness: the partiality theorem applied to a concrete store with
the unregistered name "ghost" and one concrete invocation. -/
theorem report_unknown_keyerror_witness :
    generate_mythological_report c10Engine (some "ghost") = none ∧
    reportLines c10Engine (some "ghost") = none ∧
    log_invocation c10Engine "ghost" "ctx" none 5 "t1" "t2" 0 0 = c10Engine :=
  ⟨(report_unknown_keyerror c10Engine "ghost" (by decide) (by decide)).1,
   (report_unknown_keyerror c10Engine "ghost" (by decide) (by decide)).2.1,
   (report_unknown_keyerror c10Engine "ghost" (by decide) (by decide)).2.2
     "ctx" none 5 "t1" "t2" 0 0⟩

/-- C10 counterexample: the original claim fails at the empty name.  On
a store that does not contain "", the program does not raise: the call
takes the falsy branch of `if persona_name:` and returns the same full
chronicle the no-argument call produces, so a report is returned rather
than a lookup failure. -/
theorem report_unknown_keyerror_counterexample :
    dictGet c10Engine.personas "" = none ∧
    generate_mythological_report c10Engine (some "") =
      generate_mythological_report c10Engine none ∧
    generate_mythological_report c10Engine (some "") ≠ none := by
  refine ⟨by decide, rfl, ?_⟩
  simp [generate_mythological_report, reportLines]

/-- The fixed banner of export_evolved_presets; `now` stands for the
datetime.now() timestamp interpolated into the third line. -/
def exportHeader (now : String) : List String :=
  ["# " ++ String.mk (List.replicate 60 '='),
   "#  SANCTUARY — EVOLVED AVATAR PRESETS",
   "#  Generated: " ++ now,
   "# " ++ String.mk (List.replicate 60 '='),
   ""]

/-- The per-persona block of export_evolved_presets: key/value lines,
then the constraints, sample_phrases and developed_traits list sections
when nonempty — the phrase section renders
`all_phrases = sample_phrases + learned_phrases` — then a blank line. -/
def personaExportBlock (name : String) (p : PersonaState) : List String :=
  ["  " ++ name ++ ":",
   "    role: \"" ++ p.role ++ "\"",
   "    voice: \"" ++ p.voice ++ "\"",
   "    essence: \"" ++ p.essence ++ "\"",
   "    evolution_stage: " ++ toString p.evolution_stage,
   "    invocation_count: " ++ toString p.invocation_count]
  ++ (if p.constraints ≠ [] then
        "    constraints:" :: p.constraints.map (fun c => "      - \"" ++ c ++ "\"")
      else [])
  ++ (let all_phrases := p.sample_phrases ++ p.learned_phrases
      if all_phrases ≠ [] then
        "    sample_phrases:" :: all_phrases.map (fun ph => "      - \"" ++ ph ++ "\"")
      else [])
  ++ (if p.developed_traits ≠ [] then
        "    developed_traits:" :: p.developed_traits.map (fun t => "      - \"" ++ t ++ "\"")
      else [])
  ++ [""]

/-- The line list built by export_evolved_presets over the whole store. -/
def exportLines (now : String) (s : MythosEngine) : List String :=
  exportHeader now ++ s.personas.flatMap (fun np => personaExportBlock np.1 np.2)

/-- MythosEngine.export_evolved_presets: the lines joined by newlines. -/
def export_evolved_presets (now : String) (s : MythosEngine) : String :=
  String.intercalate "\n" (exportLines now s)

/-- The item lines of the sample_phrases section of an export block: what
stands after the `sample_phrases:` key, up to the next section. -/
def samplePhraseLines (block : List String) : List String :=
  ((block.dropWhile (fun l => !(l == "    sample_phrases:"))).drop 1).takeWhile
    (fun l => !(l == "    developed_traits:") && !(l == ""))

theorem pref_of_append (l₁ l₂ l₃ : List Char) (h : l₁ ++ l₂ = l₃) :
    l₁.isPrefixOf l₃ = true := by
  subst h
  induction l₁ with
  | nil => simp [List.isPrefixOf]
  | cons a t ih => simp [List.isPrefixOf, ih]

theorem append2_ne (a b d : String)
    (h : a.data.isPrefixOf d.data = false) : a ++ b ≠ d := by
  intro heq
  have hd : a.data ++ b.data = d.data := by
    rw [← String.data_append, heq]
  rw [pref_of_append a.data b.data d.data hd] at h
  simp at h

theorem append3_ne (a b c d : String)
    (h : a.data.isPrefixOf d.data = false) : (a ++ b) ++ c ≠ d := by
  intro heq
  have hd : a.data ++ (b.data ++ c.data) = d.data := by
    rw [← List.append_assoc, ← String.data_append, ← String.data_append, heq]
  rw [pref_of_append a.data (b.data ++ c.data) d.data hd] at h
  simp at h

theorem dropWhile_append_of_all {α : Type} (q : α → Bool) (xs ys : List α)
    (hall : ∀ u ∈ xs, q u = true) :
    (xs ++ ys).dropWhile q = ys.dropWhile q := by
  induction xs with
  | nil => rfl
  | cons u tl ih =>
      simp [List.dropWhile_cons, hall u (by simp),
        ih fun w hw => hall w (by simp [hw])]

theorem takeWhile_append_of_all {α : Type} (q : α → Bool) (xs ys : List α)
    (hall : ∀ u ∈ xs, q u = true) :
    (xs ++ ys).takeWhile q = xs ++ ys.takeWhile q := by
  induction xs with
  | nil => rfl
  | cons u tl ih =>
      simp [List.takeWhile_cons, hall u (by simp),
        ih fun w hw => hall w (by simp [hw])]

theorem dropWhile_eq_nil_of_all {α : Type} (q : α → Bool) (xs : List α)
    (hall : ∀ u ∈ xs, q u = true) : xs.dropWhile q = [] := by
  induction xs with
  | nil => rfl
  | cons u tl ih =>
      simp [List.dropWhile_cons, hall u (by simp),
        ih fun w hw => hall w (by simp [hw])]

/-- C7: for every persona in the store, the export rendered by
export_evolved_presets places that persona as one contiguous block, and
the item lines of the block's sample_phrases section are exactly the
original sample_phrases followed by the learned_phrases, in stored order.
The side condition keeps the persona's own name line from spelling the
literal section key. -/
theorem export_sample_phrases (now : String) (s : MythosEngine)
    (name : String) (p : PersonaState)
    (hmem : (name, p) ∈ s.personas)
    (hname : "  " ++ name ++ ":" ≠ "    sample_phrases:") :
    (∃ pre post, exportLines now s = pre ++ personaExportBlock name p ++ post) ∧
    samplePhraseLines (personaExportBlock name p) =
      (p.sample_phrases ++ p.learned_phrases).map
        (fun ph => "      - \"" ++ ph ++ "\"") := by
  constructor
  · obtain ⟨u, v, huv⟩ := List.append_of_mem hmem
    refine ⟨exportHeader now ++ u.flatMap (fun np => personaExportBlock np.1 np.2),
      v.flatMap (fun np => personaExportBlock np.1 np.2), ?_⟩
    simp [exportLines, huv]
  · have b1 : (("  " ++ name ++ ":") == "    sample_phrases:") = false := by
      simp [hname]
    have b2 : (("    role: \"" ++ p.role ++ "\"") == "    sample_phrases:") = false := by
      simp [append3_ne "    role: \"" p.role "\"" "    sample_phrases:" (by decide)]
    have b3 : (("    voice: \"" ++ p.voice ++ "\"") == "    sample_phrases:") = false := by
      simp [append3_ne "    voice: \"" p.voice "\"" "    sample_phrases:" (by decide)]
    have b4 : (("    essence: \"" ++ p.essence ++ "\"") == "    sample_phrases:") = false := by
      simp [append3_ne "    essence: \"" p.essence "\"" "    sample_phrases:" (by decide)]
    have b5 : (("    evolution_stage: " ++ toString p.evolution_stage) == "    sample_phrases:") = false := by
      simp [append2_ne "    evolution_stage: " (toString p.evolution_stage) "    sample_phrases:" (by decide)]
    have b6 : (("    invocation_count: " ++ toString p.invocation_count) == "    sample_phrases:") = false := by
      simp [append2_ne "    invocation_count: " (toString p.invocation_count) "    sample_phrases:" (by decide)]
    have hC : ∀ x ∈ (if p.constraints ≠ [] then
        "    constraints:" :: p.constraints.map (fun c => "      - \"" ++ c ++ "\"")
      else ([] : List String)), (!(x == "    sample_phrases:")) = true := by
      intro x hx
      split at hx
      · rcases List.mem_cons.mp hx with hx | hx
        · subst hx; decide
        · obtain ⟨c, hc, rfl⟩ := List.mem_map.mp hx
          simp [append3_ne "      - \"" c "\"" "    sample_phrases:" (by decide)]
      · simp at hx
    unfold samplePhraseLines personaExportBlock
    simp only [List.cons_append, List.nil_append, List.append_assoc]
    rw [List.dropWhile_cons, List.dropWhile_cons, List.dropWhile_cons,
      List.dropWhile_cons, List.dropWhile_cons, List.dropWhile_cons]
    simp only [b1, b2, b3, b4, b5, b6, Bool.not_false, if_true]
    rw [dropWhile_append_of_all _ _ _ hC]
    by_cases hph : p.sample_phrases ++ p.learned_phrases = []
    · simp only [hph, ne_eq, not_true_eq_false, if_false, List.nil_append]
      have hT : ∀ x ∈ ((if p.developed_traits ≠ [] then
          "    developed_traits:" :: p.developed_traits.map (fun t => "      - \"" ++ t ++ "\"")
        else ([] : List String)) ++ [""]), (!(x == "    sample_phrases:")) = true := by
        intro x hx
        rcases List.mem_append.mp hx with hx | hx
        · split at hx
          · rcases List.mem_cons.mp hx with hx | hx
            · subst hx; decide
            · obtain ⟨t, ht, rfl⟩ := List.mem_map.mp hx
              simp [append3_ne "      - \"" t "\"" "    sample_phrases:" (by decide)]
          · simp at hx
        · rcases List.mem_singleton.mp hx with rfl
          decide
      rw [dropWhile_eq_nil_of_all _ _ hT]
      simp [hph]
    · simp only [ne_eq, hph, not_false_eq_true, if_true, List.cons_append]
      rw [List.dropWhile_cons]
      have bm : (("    sample_phrases:" : String) == "    sample_phrases:") = true := by decide
      simp only [bm, Bool.not_true, Bool.false_eq_true, if_false]
      simp only [List.drop_one, List.tail_cons]
      have hI : ∀ x ∈ (p.sample_phrases ++ p.learned_phrases).map
          (fun ph => "      - \"" ++ ph ++ "\""),
          ((!(x == "    developed_traits:")) && (!(x == ""))) = true := by
        intro x hx
        obtain ⟨ph, hph2, rfl⟩ := List.mem_map.mp hx
        have n1 := append3_ne "      - \"" ph "\"" "    developed_traits:" (by decide)
        have n2 := append3_ne "      - \"" ph "\"" "" (by decide)
        simp [n1, n2]
      rw [takeWhile_append_of_all _ _ _ hI]
      by_cases hdt : p.developed_traits = []
      · simp [hdt]
      · simp [hdt, List.takeWhile_cons]

def c7Persona : PersonaState :=
  { name := "Y", role := "r", voice := "v", essence := "e",
    constraints := ["c1"], sample_phrases := ["orig one", "orig two"],
    invocation_count := 10, evolution_stage := 1,
    accumulated_context := [], learned_phrases := ["learned one"],
    developed_traits := ["dt"] }

def c7Engine : MythosEngine :=
  { personas := [("Y", c7Persona)], events := [], generated_lore := [] }

/-- C7 witness: a concrete persona with two original sample phrases and
one learned phrase exports exactly three phrase lines, originals first,
then the learned one. -/
theorem export_sample_phrases_witness :
    (∃ pre post, exportLines "2025-01-01T00:00:00" c7Engine =
      pre ++ personaExportBlock "Y" c7Persona ++ post) ∧
    samplePhraseLines (personaExportBlock "Y" c7Persona) =
      ["      - \"orig one\"", "      - \"orig two\"", "      - \"learned one\""] := by
  have h := export_sample_phrases "2025-01-01T00:00:00" c7Engine "Y" c7Persona
    (by decide) (by decide)
  exact ⟨h.1, by rw [h.2]; decide⟩

/-- JSON-like document values for the persistence layer. -/
inductive Json where
  | null
  | bool (flag : Bool)
  | num (value : Int)
  | str (text : String)
  | arr (elements : List Json)
  | obj (entries : List (String × Json))
  deriving Repr

/-- The dict `asdict` produces for a PersonaState, as json.dump writes it
in _save_state: the eleven fields in declaration order. -/
def PersonaState.to_dict (p : PersonaState) : Json :=
  .obj [("name", .str p.name), ("role", .str p.role), ("voice", .str p.voice),
        ("essence", .str p.essence),
        ("constraints", .arr (p.constraints.map .str)),
        ("sample_phrases", .arr (p.sample_phrases.map .str)),
        ("invocation_count", .num p.invocation_count),
        ("evolution_stage", .num p.evolution_stage),
        ("accumulated_context", .arr (p.accumulated_context.map .str)),
        ("learned_phrases", .arr (p.learned_phrases.map .str)),
        ("developed_traits", .arr (p.developed_traits.map .str))]

/-- The dict `asdict` produces for a MythologicalEvent. -/
def MythologicalEvent.to_dict (e : MythologicalEvent) : Json :=
  .obj [("timestamp", .str e.timestamp), ("persona_name", .str e.persona_name),
        ("event_type", .str e.event_type), ("context", .str e.context),
        ("emotional_weight", .num e.emotional_weight),
        ("tags", .arr (e.tags.map .str))]

/-- Decode a JSON array of strings; any other member is malformed. -/
def strListOfJson : List Json → Option (List String)
  | [] => some []
  | .str s :: rest => (strListOfJson rest).map (fun l => s :: l)
  | _ => none

/-- String payload of a JSON value, malformed otherwise. -/
def getStr : Json → Option String
  | .str s => some s
  | _ => none

/-- Integer payload of a JSON value, malformed otherwise. -/
def getNum : Json → Option Int
  | .num n => some n
  | _ => none

/-- String-list payload of a JSON array value, malformed otherwise. -/
def getStrList : Json → Option (List String)
  | .arr items => strListOfJson items
  | _ => none

/-- Reconstruct a PersonaState from a snapshot entry, mirroring
`PersonaState(**state)` applied to a document written by _save_state:
exactly the eleven keys in snapshot order with values of the right
types; any other shape is malformed and fails the load. -/
def personaOfJson : Json → Option PersonaState
  | .obj [(k1, v1), (k2, v2), (k3, v3), (k4, v4), (k5, v5), (k6, v6),
          (k7, v7), (k8, v8), (k9, v9), (k10, v10), (k11, v11)] =>
      if k1 = "name" ∧ k2 = "role" ∧ k3 = "voice" ∧ k4 = "essence" ∧
          k5 = "constraints" ∧ k6 = "sample_phrases" ∧
          k7 = "invocation_count" ∧ k8 = "evolution_stage" ∧
          k9 = "accumulated_context" ∧ k10 = "learned_phrases" ∧
          k11 = "developed_traits" then do
        let name ← getStr v1
        let role ← getStr v2
        let voice ← getStr v3
        let essence ← getStr v4
        let constraints ← getStrList v5
        let sample_phrases ← getStrList v6
        let invocation_count ← getNum v7
        let evolution_stage ← getNum v8
        let accumulated_context ← getStrList v9
        let learned_phrases ← getStrList v10
        let developed_traits ← getStrList v11
        some { name := name, role := role, voice := voice, essence := essence,
               constraints := constraints, sample_phrases := sample_phrases,
               invocation_count := invocation_count,
               evolution_stage := evolution_stage,
               accumulated_context := accumulated_context,
               learned_phrases := learned_phrases,
               developed_traits := developed_traits }
      else none
  | _ => none

/-- Reconstruct a MythologicalEvent, mirroring `MythologicalEvent(**e)`
on a document written by _save_state. -/
def eventOfJson : Json → Option MythologicalEvent
  | .obj [(k1, v1), (k2, v2), (k3, v3), (k4, v4), (k5, v5), (k6, v6)] =>
      if k1 = "timestamp" ∧ k2 = "persona_name" ∧ k3 = "event_type" ∧
          k4 = "context" ∧ k5 = "emotional_weight" ∧ k6 = "tags" then do
        let timestamp ← getStr v1
        let persona_name ← getStr v2
        let event_type ← getStr v3
        let context ← getStr v4
        let emotional_weight ← getNum v5
        let tags ← getStrList v6
        some { timestamp := timestamp, persona_name := persona_name,
               event_type := event_type, context := context,
               emotional_weight := emotional_weight, tags := tags }
      else none
  | _ => none

/-- The persona snapshot comprehension of _load_state. -/
def personasOfJson : List (String × Json) → Option (List (String × PersonaState))
  | [] => some []
  | (n, j) :: rest => do
      let p ← personaOfJson j
      let tail ← personasOfJson rest
      some ((n, p) :: tail)

/-- The event list comprehension of _load_state. -/
def eventsOfJson : List Json → Option (List MythologicalEvent)
  | [] => some []
  | j :: rest => do
      let e ← eventOfJson j
      let tail ← eventsOfJson rest
      some (e :: tail)

/-- The lore cache document, a mapping from string to string list. -/
def loreOfJson : List (String × Json) → Option (List (String × List String))
  | [] => some []
  | (n, .arr items) :: rest => do
      let ss ← strListOfJson items
      let tail ← loreOfJson rest
      some ((n, ss) :: tail)
  | _ => none

/-- MythosEngine._save_state: serializes the full persona store, full
event log and lore cache, overwriting the three durable documents. -/
def _save_state (s : MythosEngine) : Json × Json × Json :=
  (.obj (s.personas.map (fun np => (np.1, np.2.to_dict))),
   .arr (s.events.map (fun e => e.to_dict)),
   .obj (s.generated_lore.map (fun nl => (nl.1, .arr (nl.2.map .str)))))

/-- MythosEngine._load_state: each document is optional — a missing file
is normal on first run and yields the empty collection — and a present
document of the wrong shape is a fatal load error, modelled by none. -/
def _load_state (pd ed ld : Option Json) : Option MythosEngine := do
  let personas ← match pd with
    | none => some []
    | some (.obj entries) => personasOfJson entries
    | some _ => none
  let events ← match ed with
    | none => some []
    | some (.arr items) => eventsOfJson items
    | some _ => none
  let generated_lore ← match ld with
    | none => some []
    | some (.obj entries) => loreOfJson entries
    | some _ => none
  some { personas := personas, events := events,
         generated_lore := generated_lore }

theorem strListOfJson_map (l : List String) :
    strListOfJson (l.map Json.str) = some l := by
  induction l with
  | nil => rfl
  | cons a t ih => simp [strListOfJson, ih]

theorem personaOfJson_to_dict (p : PersonaState) :
    personaOfJson p.to_dict = some p := by
  simp [PersonaState.to_dict, personaOfJson, getStr, getNum, getStrList,
    strListOfJson_map]

theorem eventOfJson_to_dict (e : MythologicalEvent) :
    eventOfJson e.to_dict = some e := by
  simp [MythologicalEvent.to_dict, eventOfJson, getStr, getNum, getStrList,
    strListOfJson_map]

theorem personasOfJson_map (l : List (String × PersonaState)) :
    personasOfJson (l.map (fun np => (np.1, np.2.to_dict))) = some l := by
  induction l with
  | nil => rfl
  | cons a t ih => simp [personasOfJson, personaOfJson_to_dict, ih]

theorem eventsOfJson_map (l : List MythologicalEvent) :
    eventsOfJson (l.map (fun e => e.to_dict)) = some l := by
  induction l with
  | nil => rfl
  | cons a t ih => simp [eventsOfJson, eventOfJson_to_dict, ih]

theorem loreOfJson_map (l : List (String × List String)) :
    loreOfJson (l.map (fun nl => (nl.1, Json.arr (nl.2.map Json.str)))) =
      some l := by
  induction l with
  | nil => rfl
  | cons a t ih => simp [loreOfJson, strListOfJson_map, ih]

/-- C6: persist-then-reload round trip: loading the three documents that
_save_state wrote yields exactly the saved engine state — persona store,
event log and lore cache field-for-field identical — for every state. -/
theorem save_load_roundtrip (s : MythosEngine) :
    _load_state (some (_save_state s).1) (some (_save_state s).2.1)
      (some (_save_state s).2.2) = some s := by
  obtain ⟨personas, events, lore⟩ := s
  simp [_save_state, _load_state, personasOfJson_map, eventsOfJson_map,
    loreOfJson_map]

end Sanctuary
